/-
Verification of the core of the RESUME repository (src/main.py): the
response parser `get_matching_score_summary_and_edits`, the prompt
builder, the document loader `load_document`, and the RAG assembly in
`get_rag_chain`.

Strings are modelled as Lean `String` / `List Char`; the Python string
operations the source uses (`split`, `strip`, `in`, `startswith`,
`endswith`, `int(...)`, `str.format`) are given explicit executable
models (`pySplitChar`, `pyStrip`, `pyContains`, ...) over ASCII-style
character lists, matching CPython semantics on the character sets that
occur (CPython additionally strips some exotic Unicode whitespace and
accepts Unicode digits; none of those occur in the analysed texts).
Python exceptions are modelled with `Option` / `Except`.
-/
import Mathlib

/-- Whitespace characters recognised by Python `str.strip()` (ASCII fragment). -/
def isPySpace (c : Char) : Bool :=
  c = ' ' || c = '\t' || c = '\n' || c = '\r' || c = '\x0b' || c = '\x0c'

/-- Model of Python `str.strip()`: drop leading and trailing whitespace. -/
def pyStrip (l : List Char) : List Char :=
  ((l.dropWhile isPySpace).reverse.dropWhile isPySpace).reverse

/-- Model of Python `str.split(sep)` for a one-character separator `sep`
(no maxsplit): `"".split(c) = [""]`, separators produce empty fields. -/
def pySplitChar (sep : Char) : List Char → List (List Char)
  | [] => [[]]
  | c :: rest =>
    match pySplitChar sep rest with
    | [] => [[]]
    | h :: t => if c = sep then [] :: h :: t else (c :: h) :: t

/-- Model of the Python substring test `sub in l`. -/
def pyContains (sub l : List Char) : Bool :=
  decide (sub <:+: l)

/-- Model of Python `s.endswith(suffix)`. -/
def pyEndsWith (s suffix : String) : Bool :=
  decide (suffix.data <:+ s.data)

/-- Digit run of a Python integer literal, continued: underscores are
allowed only between digits (`int("8_2") = 82`, `int("8_")` raises). -/
def pyDigitsRest (acc : Nat) : List Char → Option Nat
  | [] => some acc
  | '_' :: c :: rest =>
    if c.isDigit then pyDigitsRest (10 * acc + (c.toNat - 48)) rest else none
  | c :: rest =>
    if c.isDigit then pyDigitsRest (10 * acc + (c.toNat - 48)) rest else none

/-- Digit run of a Python integer literal: at least one digit, then
digits with single interior underscores. -/
def pyDigits : List Char → Option Nat
  | [] => none
  | c :: rest => if c.isDigit then pyDigitsRest (c.toNat - 48) rest else none

/-- Model of Python `int(s)` on ASCII text: surrounding whitespace is
stripped, an optional sign precedes the digits, failure (`ValueError`)
is `none`. -/
def pyInt (l : List Char) : Option Int :=
  match pyStrip l with
  | '+' :: rest => (pyDigits rest).map (fun n => (n : Int))
  | '-' :: rest => (pyDigits rest).map (fun n => -(n : Int))
  | t => (pyDigits t).map (fun n => (n : Int))

/-- `'Matching Score:' in line` (src/main.py line 94). -/
def isMarkerScore (l : List Char) : Bool := pyContains "Matching Score:".data l

/-- `'Summary:' in line` (src/main.py line 101). -/
def isMarkerSummary (l : List Char) : Bool := pyContains "Summary:".data l

/-- `'Suggested Edits:' in line` (src/main.py line 104). -/
def isMarkerEdits (l : List Char) : Bool := pyContains "Suggested Edits:".data l

/-- The score extraction of src/main.py lines 96-100:
`score_part = line.split(':')[1].strip(); score = int(score_part.split('/')[0])`
with `ValueError`/`IndexError` caught as `none`. -/
def scoreOfLine (line : List Char) : Option Int :=
  match pySplitChar ':' line with
  | _ :: p1 :: _ =>
    match pySplitChar '/' (pyStrip p1) with
    | s0 :: _ => pyInt s0
    | [] => none
  | _ => none

/-- The summary seed of src/main.py line 103:
`summary = line.split(':', 1)[1].strip()`.  The text after the first
colon is `(l.dropWhile (· != ':')).tail`; the branch only runs on lines
containing `"Summary:"`, so the colon (hence index 1) always exists. -/
def summarySeed (line : List Char) : List Char :=
  pyStrip ((line.dropWhile (· != ':')).tail)

/-- `line.strip().startswith('-')`, applied to an already stripped line:
true exactly when the first character exists and is a dash. -/
def dashStart (l : List Char) : Bool :=
  match l with
  | [] => false
  | c :: _ => c = '-'

/-- The `current_section` variable of the parser: `None`, `'score'`,
`'summary'`, `'edits'`. -/
inductive CurrentSection where
  | initial
  | score
  | summary
  | edits
deriving DecidableEq

/-- The mutable state of the parsing loop of src/main.py lines 86-109. -/
structure ParseState where
  score : Option Int
  summary : List Char
  suggested_edits : List (List Char)
  current_section : CurrentSection
deriving DecidableEq

/-- Initial state: `score = None`, `summary = ""`, `suggested_edits = []`,
`current_section = None`. -/
def initState : ParseState := ⟨none, [], [], .initial⟩

/-- One iteration of the `for line in lines` loop of src/main.py
lines 93-109. -/
def step (st : ParseState) (line : List Char) : ParseState :=
  if isMarkerScore line then
    { st with current_section := .score, score := scoreOfLine line }
  else if isMarkerSummary line then
    { st with current_section := .summary, summary := summarySeed line }
  else if isMarkerEdits line then
    { st with current_section := .edits }
  else if st.current_section = .edits ∧ dashStart (pyStrip line) then
    { st with suggested_edits := st.suggested_edits ++ [pyStrip line] }
  else if st.current_section = .summary then
    { st with summary := st.summary ++ '\n' :: pyStrip line }
  else st

/-- The dictionary returned by `get_matching_score_summary_and_edits`. -/
structure AnalysisResult where
  matching_score : Option Int
  summary : List Char
  suggested_edits : List (List Char)
deriving DecidableEq

/-- The response-parsing part of `get_matching_score_summary_and_edits`
(src/main.py lines 86-111), as a function of the LLM response text:
split on newlines, fold the per-line state machine, return the fields. -/
def get_matching_score_summary_and_edits (response_text : String) : AnalysisResult :=
  let lines := pySplitChar '\n' response_text.data
  let final := lines.foldl step initState
  ⟨final.score, final.summary, final.suggested_edits⟩

/-- The three loaders `load_document` can select. -/
inductive Loader where
  | pyPDFLoader
  | docx2txtLoader
  | textLoader
deriving DecidableEq

/-- `load_document` (src/main.py lines 14-23), up to the loader choice:
the `ValueError("Unsupported file type")` is the `Except.error` case. -/
def load_document (file_path : String) : Except String Loader :=
  if pyEndsWith file_path ".pdf" then .ok .pyPDFLoader
  else if pyEndsWith file_path ".docx" then .ok .docx2txtLoader
  else if pyEndsWith file_path ".txt" then .ok .textLoader
  else .error "Unsupported file type"

/-- The chunking configuration of `RecursiveCharacterTextSplitter`
(src/main.py line 35). -/
structure ChunkConfig where
  chunk_size : Nat
  chunk_overlap : Nat
deriving DecidableEq

/-- The index-building part of `get_rag_chain` (src/main.py lines 34-41):
one splitter with `chunk_size=1000, chunk_overlap=200` chunks each blob,
and `FAISS.from_documents(resume_docs + jd_docs, embeddings)` inserts the
(chunk, vector) pairs in list order.  The external splitter and embedder
are parameters; the index is the insertion-ordered pair list. -/
def get_rag_chain_index {V : Type} (chunker : ChunkConfig → String → List String)
    (embed : String → V) (resume_content jd_content : String) : List (String × V) :=
  let text_splitter : ChunkConfig := ⟨1000, 200⟩
  let resume_docs := chunker text_splitter resume_content
  let jd_docs := chunker text_splitter jd_content
  (resume_docs ++ jd_docs).map (fun d => (d, embed d))

/-- Model of Python `str.format(...)` substitution on a template without
brace escapes: copy characters; at `\x7b`, collect the field name up to
`\x7d` and splice in the looked-up value.  The first argument is the
keyword mapping, the `Bool` says whether we are inside a field name,
the first list is the reversed name collected so far. -/
def pyFormatAux (f : String → String) : Bool → List Char → List Char → List Char
  | false, _, [] => []
  | false, acc, c :: rest =>
    if c = '\x7b' then pyFormatAux f true [] rest
    else c :: pyFormatAux f false acc rest
  | true, _, [] => []
  | true, acc, c :: rest =>
    if c = '\x7d' then (f (String.mk acc.reverse)).data ++ pyFormatAux f false [] rest
    else pyFormatAux f true (c :: acc) rest

/-- Model of Python `template.format(...)` with keyword arguments. -/
def pyFormat (template : String) (f : String → String) : String :=
  String.mk (pyFormatAux f false [] template.data)

/-- The `prompt_template` literal of src/main.py lines 57-78 (a Python
triple-quoted string: it starts with a newline and each line carries the
4-space indentation of the function body). -/
def prompt_template : String :=
  "\n    You are an AI assistant that specializes in matching resumes to job descriptions.\n    Given a resume and a job description, perform the following tasks:\n    1. Identify key skills from the resume that match the job description.\n    2. Identify relevant project experience from the resume that aligns with the job requirements.\n    3. Assess the overall compatibility between the resume and the job description.\n    4. Generate a matching score out of 100, where 100 is a perfect match.\n    5. Provide a concise summary explaining the matching score, highlighting strengths and weaknesses.\n    6. Suggest specific edits to the resume to better match the job description. Provide these as a bulleted list.\n\n    Resume: {resume}\n    Job Description: {job_description}\n\n    Please provide the output in the following format:\n\n    Matching Score: [SCORE]/100\n    Summary: [SUMMARY TEXT]\n    Suggested Edits:\n    - [EDIT 1]\n    - [EDIT 2]\n    - ...\n    "

/-- `prompt_template.format(resume=resume_text, job_description=jd_text)`
(src/main.py line 80).  The template names only these two fields, so the
default branch of the mapping is unreachable. -/
def formatted_prompt (resume_text jd_text : String) : String :=
  pyFormat prompt_template
    (fun n => if n = "resume" then resume_text
              else if n = "job_description" then jd_text else "")

/-- The template text before the `resume` field. -/
def promptPre : String :=
  "\n    You are an AI assistant that specializes in matching resumes to job descriptions.\n    Given a resume and a job description, perform the following tasks:\n    1. Identify key skills from the resume that match the job description.\n    2. Identify relevant project experience from the resume that aligns with the job requirements.\n    3. Assess the overall compatibility between the resume and the job description.\n    4. Generate a matching score out of 100, where 100 is a perfect match.\n    5. Provide a concise summary explaining the matching score, highlighting strengths and weaknesses.\n    6. Suggest specific edits to the resume to better match the job description. Provide these as a bulleted list.\n\n    Resume: "

/-- The template text between the `resume` and `job_description` fields. -/
def promptMid : String := "\n    Job Description: "

/-- The template text after the `job_description` field. -/
def promptPost : String :=
  "\n\n    Please provide the output in the following format:\n\n    Matching Score: [SCORE]/100\n    Summary: [SUMMARY TEXT]\n    Suggested Edits:\n    - [EDIT 1]\n    - [EDIT 2]\n    - ...\n    "

/-- The score-extraction procedure as the specification describes it:
take the text after the FIRST colon, split that on `/`, parse the text
before `/` as an integer (absent on failure).  Written from the spec's
words, to be compared with `scoreOfLine` (written from the source). -/
def scoreSpecClaimed (l : List Char) : Option Int :=
  pyInt (((l.dropWhile (· != ':')).tail).takeWhile (· != '/'))

/-- The corrected description of the source's score extraction: take the
text BETWEEN the first and second colons (element 1 of the unlimited
colon split), strip it, take the text before `/`, parse as an integer. -/
def scoreSpecAmended (l : List Char) : Option Int :=
  pyInt ((pyStrip (((l.dropWhile (· != ':')).tail).takeWhile (· != ':'))).takeWhile (· != '/'))

/- ### String and list helper lemmas -/

theorem data_append (a b : String) : (a ++ b).data = a.data ++ b.data := rfl

theorem string_ext {a b : String} (h : a.data = b.data) : a = b := by
  cases a; cases b; cases h; rfl

/- ### Behaviour of the format model -/

theorem pyFormatAux_copy (f : String → String) (acc xs rest : List Char)
    (h : '\x7b' ∉ xs) :
    pyFormatAux f false acc (xs ++ rest) = xs ++ pyFormatAux f false acc rest := by
  induction xs with
  | nil => rfl
  | cons c cs ih =>
    have hc : c ≠ '\x7b' := fun h2 => h (h2 ▸ List.mem_cons_self c cs)
    have hcs : '\x7b' ∉ cs := fun h2 => h (List.mem_cons_of_mem c h2)
    simp [pyFormatAux, hc, ih hcs]

theorem pyFormatAux_nil (f : String → String) (acc : List Char) :
    pyFormatAux f false acc [] = [] := rfl

theorem pyFormatAux_copy_all (f : String → String) (acc xs : List Char)
    (h : '\x7b' ∉ xs) :
    pyFormatAux f false acc xs = xs := by
  have h2 := pyFormatAux_copy f acc xs [] h
  simpa [pyFormatAux_nil] using h2

theorem pyFormatAux_field (f : String → String) (name : List Char)
    (rest : List Char) (acc : List Char) (h : '\x7d' ∉ name) :
    pyFormatAux f true acc (name ++ '\x7d' :: rest) =
      (f (String.mk (acc.reverse ++ name))).data ++ pyFormatAux f false [] rest := by
  induction name generalizing acc with
  | nil => simp [pyFormatAux]
  | cons c cs ih =>
    have hc : c ≠ '\x7d' := fun h2 => h (h2 ▸ List.mem_cons_self c cs)
    have hcs : '\x7d' ∉ cs := fun h2 => h (List.mem_cons_of_mem c h2)
    simp [pyFormatAux, hc, ih (c :: acc) hcs]

set_option maxRecDepth 8000 in
theorem prompt_template_decomp :
    prompt_template.data =
      promptPre.data ++ '\x7b' :: ("resume".data ++ '\x7d' ::
        (promptMid.data ++ '\x7b' :: ("job_description".data ++ '\x7d' :: promptPost.data))) := by
  decide

set_option maxRecDepth 8000 in
/-- C7: the Prompt Builder is pure string template substitution: for every
resume text and every job-description text it renders the fixed instruction
template with both texts substituted verbatim (the output is literally
template-prefix ++ resume ++ template-middle ++ jd ++ template-suffix), and
no size validation or truncation happens — the output length is an exact
constant plus the two input lengths, for arbitrarily long inputs. -/
theorem prompt_builder_substitutes_verbatim (resume_text jd_text : String) :
    formatted_prompt resume_text jd_text =
      promptPre ++ resume_text ++ promptMid ++ jd_text ++ promptPost ∧
    (formatted_prompt resume_text jd_text).length =
      promptPre.length + resume_text.length + promptMid.length
        + jd_text.length + promptPost.length := by
  have key : formatted_prompt resume_text jd_text =
      promptPre ++ resume_text ++ promptMid ++ jd_text ++ promptPost := by
    apply string_ext
    show (pyFormat prompt_template _).data = _
    unfold pyFormat
    rw [prompt_template_decomp]
    rw [pyFormatAux_copy _ _ _ _ (by decide)]
    show _ ++ pyFormatAux _ false [] _ = _
    rw [show ∀ f rest, pyFormatAux f false [] ('\x7b' :: rest) = pyFormatAux f true [] rest
          from fun f rest => rfl]
    rw [pyFormatAux_field _ _ _ _ (by decide)]
    rw [pyFormatAux_copy _ _ _ _ (by decide)]
    rw [show ∀ f rest, pyFormatAux f false [] ('\x7b' :: rest) = pyFormatAux f true [] rest
          from fun f rest => rfl]
    rw [pyFormatAux_field _ _ _ _ (by decide)]
    rw [pyFormatAux_copy_all _ _ _ (by decide)]
    simp only [List.reverse_nil, List.nil_append, data_append]
    simp [List.append_assoc]
  refine ⟨key, ?_⟩
  rw [key]
  simp [String.length_append]

/- ### Behaviour of the parser's per-line step -/

theorem step_of_score_marker (st : ParseState) (l : List Char)
    (h : isMarkerScore l = true) :
    step st l = { st with current_section := .score, score := scoreOfLine l } := by
  simp [step, h]

theorem step_of_summary_marker (st : ParseState) (l : List Char)
    (h1 : isMarkerScore l = false) (h2 : isMarkerSummary l = true) :
    step st l = { st with current_section := .summary, summary := summarySeed l } := by
  simp [step, h1, h2]

theorem step_of_edits_marker (st : ParseState) (l : List Char)
    (h1 : isMarkerScore l = false) (h2 : isMarkerSummary l = false)
    (h3 : isMarkerEdits l = true) :
    step st l = { st with current_section := .edits } := by
  simp [step, h1, h2, h3]

theorem step_edits_dash (st : ParseState) (l : List Char)
    (h1 : isMarkerScore l = false) (h2 : isMarkerSummary l = false)
    (h3 : isMarkerEdits l = false) (hs : st.current_section = .edits)
    (hd : dashStart (pyStrip l) = true) :
    step st l = { st with suggested_edits := st.suggested_edits ++ [pyStrip l] } := by
  simp [step, h1, h2, h3, hs, hd]

theorem step_edits_nodash (st : ParseState) (l : List Char)
    (h1 : isMarkerScore l = false) (h2 : isMarkerSummary l = false)
    (h3 : isMarkerEdits l = false) (hs : st.current_section = .edits)
    (hd : dashStart (pyStrip l) = false) :
    step st l = st := by
  simp [step, h1, h2, h3, hs, hd]

theorem step_summary_append (st : ParseState) (l : List Char)
    (h1 : isMarkerScore l = false) (h2 : isMarkerSummary l = false)
    (h3 : isMarkerEdits l = false) (hs : st.current_section = .summary) :
    step st l = { st with summary := st.summary ++ '\n' :: pyStrip l } := by
  simp [step, h1, h2, h3, hs]

theorem step_other_drop (st : ParseState) (l : List Char)
    (h1 : isMarkerScore l = false) (h2 : isMarkerSummary l = false)
    (h3 : isMarkerEdits l = false) (hs1 : st.current_section ≠ .edits)
    (hs2 : st.current_section ≠ .summary) :
    step st l = st := by
  simp [step, h1, h2, h3, hs1, hs2]

theorem step_suggested_edits_cases (st : ParseState) (l : List Char) :
    (step st l).suggested_edits = st.suggested_edits ∨
    ((step st l).suggested_edits = st.suggested_edits ++ [pyStrip l] ∧
      dashStart (pyStrip l) = true) := by
  unfold step
  split_ifs with h1 h2 h3 h4 h5
  · exact Or.inl rfl
  · exact Or.inl rfl
  · exact Or.inl rfl
  · exact Or.inr ⟨rfl, h4.2⟩
  · exact Or.inl rfl
  · exact Or.inl rfl

theorem foldl_step_edits_dash (lines : List (List Char)) :
    ∀ st : ParseState, (∀ e ∈ st.suggested_edits, dashStart e = true) →
      ∀ e ∈ (List.foldl step st lines).suggested_edits, dashStart e = true := by
  induction lines with
  | nil => intro st h; simpa using h
  | cons l ls ih =>
    intro st h
    rw [List.foldl_cons]
    apply ih
    intro e he
    rcases step_suggested_edits_cases st l with hc | ⟨hc, hd⟩
    · exact h e (hc ▸ he)
    · rw [hc] at he
      rcases List.mem_append.mp he with h' | h'
      · exact h e h'
      · rw [List.mem_singleton.mp h']
        exact hd

theorem dashStart_head (l : List Char) (h : dashStart l = true) :
    l.head? = some '-' := by
  cases l with
  | nil => simp [dashStart] at h
  | cons c t =>
    have hc : c = '-' := by simpa [dashStart] using h
    subst hc
    rfl

/- ### Structure of pySplitChar -/

theorem pySplitChar_ne_nil (sep : Char) (l : List Char) :
    pySplitChar sep l ≠ [] := by
  induction l with
  | nil => simp [pySplitChar]
  | cons c rest ih =>
    unfold pySplitChar
    cases hr : pySplitChar sep rest with
    | nil => exact absurd hr ih
    | cons h0 t0 => split_ifs <;> simp

theorem pySplitChar_head (sep : Char) (l : List Char) :
    ∃ t, pySplitChar sep l = (l.takeWhile (· != sep)) :: t := by
  induction l with
  | nil => exact ⟨[], rfl⟩
  | cons c rest ih =>
    obtain ⟨t, ht⟩ := ih
    by_cases hc : c = sep
    · refine ⟨rest.takeWhile (· != sep) :: t, ?_⟩
      unfold pySplitChar
      rw [ht]
      simp [hc]
    · refine ⟨t, ?_⟩
      unfold pySplitChar
      rw [ht]
      simp [hc]

theorem pySplitChar_not_mem (sep : Char) (l : List Char) (h : sep ∉ l) :
    pySplitChar sep l = [l] := by
  induction l with
  | nil => rfl
  | cons c rest ih =>
    have hc : c ≠ sep := fun h2 => h (h2 ▸ List.mem_cons_self c rest)
    have hrest : sep ∉ rest := fun h2 => h (List.mem_cons_of_mem c h2)
    unfold pySplitChar
    rw [ih hrest]
    simp [hc]

theorem pySplitChar_cons (sep c : Char) (rest : List Char) :
    pySplitChar sep (c :: rest) =
      match pySplitChar sep rest with
      | [] => [[]]
      | h :: t => if c = sep then [] :: h :: t else (c :: h) :: t := rfl

theorem pySplitChar_mem (sep : Char) (l : List Char) (h : sep ∈ l) :
    pySplitChar sep l =
      (l.takeWhile (· != sep)) :: pySplitChar sep ((l.dropWhile (· != sep)).tail) := by
  induction l with
  | nil => cases h
  | cons c rest ih =>
    by_cases hc : c = sep
    · subst hc
      cases hr : pySplitChar c rest with
      | nil => exact absurd hr (pySplitChar_ne_nil c rest)
      | cons h0 t0 =>
        rw [pySplitChar_cons, hr]
        simp [hr]
    · have hrest : sep ∈ rest := by
        rcases List.mem_cons.mp h with e | hr
        · exact absurd e.symm hc
        · exact hr
      rw [pySplitChar_cons, ih hrest]
      simp [hc]

theorem scoreOfLine_eq_amended (l : List Char) :
    scoreOfLine l = scoreSpecAmended l := by
  by_cases hm : ':' ∈ l
  · obtain ⟨t2, ht2⟩ := pySplitChar_head ':' ((l.dropWhile (· != ':')).tail)
    unfold scoreOfLine
    rw [pySplitChar_mem ':' l hm, ht2]
    show (match pySplitChar '/'
        (pyStrip (((l.dropWhile (· != ':')).tail).takeWhile (· != ':'))) with
      | s0 :: _ => pyInt s0
      | [] => none) = _
    obtain ⟨t3, ht3⟩ :=
      pySplitChar_head '/' (pyStrip (((l.dropWhile (· != ':')).tail).takeWhile (· != ':')))
    rw [ht3]
    rfl
  · have hdrop : l.dropWhile (· != ':') = [] := by
      rw [List.dropWhile_eq_nil_iff]
      intro x hx
      have hne : x ≠ ':' := fun e => hm (e ▸ hx)
      simpa using hne
    unfold scoreOfLine scoreSpecAmended
    rw [pySplitChar_not_mem ':' l hm, hdrop]
    rfl

/-- C1: the Response Parser is total over all string inputs: it is defined
as a total function of the response string (no exception path exists in the
model; every failure is a degraded field value), on the empty string it
yields `matching_score` absent, `summary` equal to the empty string and
`suggested_edits` equal to the empty list, and for every input string each
entry of `suggested_edits` is a line that began with `-`. -/
theorem parser_total_empty_and_edits_shape :
    (get_matching_score_summary_and_edits "").matching_score = none ∧
    (get_matching_score_summary_and_edits "").summary = [] ∧
    (get_matching_score_summary_and_edits "").suggested_edits = [] ∧
    ∀ s : String, ∀ e ∈ (get_matching_score_summary_and_edits s).suggested_edits,
      e.head? = some '-' := by
  refine ⟨rfl, rfl, rfl, ?_⟩
  intro s e he
  have hinv : ∀ e ∈ (List.foldl step initState (pySplitChar '\n' s.data)).suggested_edits,
      dashStart e = true := by
    apply foldl_step_edits_dash
    intro e' he'
    simp [initState] at he'
  exact dashStart_head e (hinv e he)

theorem parser_total_empty_and_edits_shape_witness :
    ("- Add skills".data).head? = some '-' :=
  parser_total_empty_and_edits_shape.2.2.2 "Suggested Edits:\n- Add skills"
    ("- Add skills".data) (by decide)

/-- C2 as stated is false on the code: the parser does not take the text
after the first colon.  On the line `"Matching Score: 1:2/100"` the code
takes `line.split(':')[1] = " 1"` and parses the score `1`, while the
claimed procedure (text after the first colon, then text before `/`,
i.e. `" 1:2"`) fails to parse and would record the score as absent. -/
theorem score_after_first_colon_counterexample :
    (get_matching_score_summary_and_edits "Matching Score: 1:2/100").matching_score
      = some 1 ∧
    scoreSpecClaimed ("Matching Score: 1:2/100".data) = none := by
  constructor
  · decide
  · decide

/-- C2 amended: on a line containing the `"Matching Score:"` marker, the
parser takes the text BETWEEN the first and second colons (element 1 of the
unlimited colon split), strips it, splits that on `/`, and parses the text
before `/` as an integer; if any step fails the score is absent and the
analysis still succeeds.  The line `"Matching Score: 82/100"` yields
`matching_score = 82` and `"Matching Score: N/A"` yields the score absent. -/
theorem score_parse_amended :
    (∀ (st : ParseState) (l : List Char), isMarkerScore l = true →
      (step st l).score = scoreOfLine l) ∧
    (∀ l : List Char, scoreOfLine l = scoreSpecAmended l) ∧
    (get_matching_score_summary_and_edits "Matching Score: 82/100").matching_score
      = some 82 ∧
    (get_matching_score_summary_and_edits "Matching Score: N/A").matching_score
      = none := by
  refine ⟨?_, scoreOfLine_eq_amended, ?_, ?_⟩
  · intro st l h
    rw [step_of_score_marker st l h]
  · decide
  · decide

theorem score_parse_amended_witness :
    (step initState ("Matching Score: 82/100".data)).score =
      scoreOfLine ("Matching Score: 82/100".data) :=
  score_parse_amended.1 initState ("Matching Score: 82/100".data) (by decide)

/-- C3 as stated is false on the code: no range check is performed, so a
response line `"Matching Score: 150/100"` produces the score 150, which is
an integer outside `[0, 100]`. -/
theorem matching_score_range_counterexample :
    (get_matching_score_summary_and_edits "Matching Score: 150/100").matching_score
      = some 150 ∧
    ¬ ((150 : Int) ≤ 100) := by
  constructor
  · decide
  · decide

/-- C3 amended: for every input string the `matching_score` field is either
absent or an integer; the range `[0,100]` is NOT enforced — the parsed value
passes through unchecked (e.g. 150 on `"Matching Score: 150/100"`). -/
theorem matching_score_none_or_int :
    (∀ s : String, (get_matching_score_summary_and_edits s).matching_score = none ∨
      ∃ n : Int, (get_matching_score_summary_and_edits s).matching_score = some n) ∧
    (get_matching_score_summary_and_edits "Matching Score: 150/100").matching_score
      = some 150 := by
  constructor
  · intro s
    match h : (get_matching_score_summary_and_edits s).matching_score with
    | none => exact Or.inl rfl
    | some n => exact Or.inr ⟨n, rfl⟩
  · decide

/-- C4: while the parser is in the EDITS state, a non-marker line is
appended (trimmed, leading `-` retained) exactly when its trimmed content
starts with `-`, in encountered order, leaving the state, score and summary
unchanged (non-dash lines are silently dropped); a marker line instead ends
edits accumulation, so the spec's example yields exactly its two dash lines
and a dash line after a `Summary:` marker is not collected. -/
theorem edits_accumulation :
    (∀ (st : ParseState) (l : List Char), st.current_section = .edits →
      isMarkerScore l = false → isMarkerSummary l = false → isMarkerEdits l = false →
      (step st l).suggested_edits =
        st.suggested_edits ++ (if dashStart (pyStrip l) = true then [pyStrip l] else []) ∧
      (step st l).current_section = .edits ∧
      (step st l).score = st.score ∧ (step st l).summary = st.summary) ∧
    (get_matching_score_summary_and_edits
        "Suggested Edits:\n- Add Python experience\n- Quantify achievements\nSummary: wrap-up").suggested_edits
      = ["- Add Python experience".data, "- Quantify achievements".data] ∧
    (get_matching_score_summary_and_edits
        "Suggested Edits:\n- a\nSummary: s\n- b").suggested_edits = ["- a".data] := by
  refine ⟨?_, by decide, by decide⟩
  intro st l hs h1 h2 h3
  cases hd : dashStart (pyStrip l) with
  | true =>
    rw [step_edits_dash st l h1 h2 h3 hs hd]
    simp [hs]
  | false =>
    rw [step_edits_nodash st l h1 h2 h3 hs hd]
    simp [hs, hd]

theorem edits_accumulation_witness :
    (step ⟨none, [], [], .edits⟩ ("- keep me".data)).suggested_edits =
        [] ++ (if dashStart (pyStrip ("- keep me".data)) = true
          then [pyStrip ("- keep me".data)] else []) ∧
      (step ⟨none, [], [], .edits⟩ ("- keep me".data)).current_section = .edits ∧
      (step ⟨none, [], [], .edits⟩ ("- keep me".data)).score = none ∧
      (step ⟨none, [], [], .edits⟩ ("- keep me".data)).summary = [] :=
  edits_accumulation.1 ⟨none, [], [], .edits⟩ ("- keep me".data)
    (by decide) (by decide) (by decide) (by decide)

/-- C5: a `"Summary:"` marker line (that is not also a score-marker line)
seeds the summary with the stripped text after its first colon (one split
only — later colons stay in the text, see the `"Summary: a: b"` example);
every subsequent non-marker line while in the SUMMARY state, blank lines
included, is trimmed and appended with a newline separator, the state
remaining SUMMARY until a new marker; and `"Summary: foo bar"` alone yields
score absent, summary `"foo bar"`, no edits. -/
theorem summary_accumulation :
    (∀ (st : ParseState) (l : List Char), isMarkerScore l = false →
      isMarkerSummary l = true →
      (step st l).summary = summarySeed l ∧ (step st l).current_section = .summary) ∧
    (∀ (st : ParseState) (l : List Char), st.current_section = .summary →
      isMarkerScore l = false → isMarkerSummary l = false → isMarkerEdits l = false →
      (step st l).summary = st.summary ++ '\n' :: pyStrip l ∧
      (step st l).current_section = .summary) ∧
    get_matching_score_summary_and_edits "Summary: foo bar" =
      ⟨none, "foo bar".data, []⟩ ∧
    (get_matching_score_summary_and_edits "Summary: a: b").summary = "a: b".data ∧
    (get_matching_score_summary_and_edits "Summary: x\n\ny").summary = "x\n\ny".data := by
  refine ⟨?_, ?_, by decide, by decide, by decide⟩
  · intro st l h1 h2
    rw [step_of_summary_marker st l h1 h2]
    exact ⟨rfl, rfl⟩
  · intro st l hs h1 h2 h3
    rw [step_summary_append st l h1 h2 h3 hs]
    exact ⟨rfl, hs⟩

theorem summary_accumulation_witness :
    (step initState ("Summary: foo bar".data)).summary =
        summarySeed ("Summary: foo bar".data) ∧
      (step initState ("Summary: foo bar".data)).current_section = .summary :=
  summary_accumulation.1 initState ("Summary: foo bar".data) (by decide) (by decide)

/-- C6: marker detection is a case-sensitive substring match against
`"Matching Score:"`, `"Summary:"`, `"Suggested Edits:"`, in that fixed
priority order per line: a score-marker line enters SCORE whatever else it
contains, a summary marker only fires without a score marker, an edits
marker only without both, and a marker-free line never changes the state;
detection is substring (not prefix) and case-sensitive, and on a line
carrying both a summary and a score marker the score branch wins. -/
theorem marker_priority :
    (∀ (st : ParseState) (l : List Char), isMarkerScore l = true →
      (step st l).current_section = .score) ∧
    (∀ (st : ParseState) (l : List Char), isMarkerScore l = false →
      isMarkerSummary l = true → (step st l).current_section = .summary) ∧
    (∀ (st : ParseState) (l : List Char), isMarkerScore l = false →
      isMarkerSummary l = false → isMarkerEdits l = true →
      (step st l).current_section = .edits) ∧
    (∀ (st : ParseState) (l : List Char), isMarkerScore l = false →
      isMarkerSummary l = false → isMarkerEdits l = false →
      (step st l).current_section = st.current_section) ∧
    isMarkerScore ("xxMatching Score: 1/100yy".data) = true ∧
    isMarkerScore ("matching score: 1/100".data) = false ∧
    isMarkerSummary ("summary: x".data) = false ∧
    get_matching_score_summary_and_edits "Matching Score: 5/100 Summary: x" =
      ⟨some 5, [], []⟩ := by
  refine ⟨?_, ?_, ?_, ?_, by decide, by decide, by decide, by decide⟩
  · intro st l h1
    rw [step_of_score_marker st l h1]
  · intro st l h1 h2
    rw [step_of_summary_marker st l h1 h2]
  · intro st l h1 h2 h3
    rw [step_of_edits_marker st l h1 h2 h3]
  · intro st l h1 h2 h3
    simp only [step, h1, h2, h3]
    simp only [Bool.false_eq_true, if_false]
    split_ifs <;> rfl

theorem marker_priority_witness :
    (step initState ("Matching Score: 5/100 Summary: x".data)).current_section =
      .score :=
  marker_priority.1 initState ("Matching Score: 5/100 Summary: x".data) (by decide)

/-- C10: under duplicated markers the later section wins for score and
summary but not for edits: a score-marker line always overwrites the score
field with that line's own parse (so a later failing parse resets an earlier
success to absent), a summary-marker line discards the accumulated summary
and re-seeds it, while an edits-marker line leaves the already collected
edits untouched, so repeated edits sections keep appending to one list. -/
theorem duplicated_markers :
    (∀ (st : ParseState) (l : List Char), isMarkerScore l = true →
      (step st l).score = scoreOfLine l) ∧
    (∀ (st : ParseState) (l : List Char), isMarkerScore l = false →
      isMarkerSummary l = true → (step st l).summary = summarySeed l) ∧
    (∀ (st : ParseState) (l : List Char), isMarkerScore l = false →
      isMarkerSummary l = false → isMarkerEdits l = true →
      (step st l).suggested_edits = st.suggested_edits) ∧
    (get_matching_score_summary_and_edits
      "Matching Score: 90/100\nMatching Score: N/A").matching_score = none ∧
    (get_matching_score_summary_and_edits "Summary: a\nSummary: b").summary
      = "b".data ∧
    (get_matching_score_summary_and_edits
      "Suggested Edits:\n- x\nSuggested Edits:\n- y").suggested_edits
      = ["- x".data, "- y".data] := by
  refine ⟨?_, ?_, ?_, by decide, by decide, by decide⟩
  · intro st l h1
    rw [step_of_score_marker st l h1]
  · intro st l h1 h2
    rw [step_of_summary_marker st l h1 h2]
  · intro st l h1 h2 h3
    rw [step_of_edits_marker st l h1 h2 h3]

theorem duplicated_markers_witness :
    (step ⟨some 90, [], [], .score⟩ ("Matching Score: N/A".data)).score =
      scoreOfLine ("Matching Score: N/A".data) :=
  duplicated_markers.1 ⟨some 90, [], [], .score⟩ ("Matching Score: N/A".data)
    (by decide)

/-- C8: for every external chunker and embedder, the RAG assembly chunks the
resume blob and the job-description blob independently with the same
chunk-size/overlap configuration (1000/200) and builds one merged index
containing exactly the embedded chunk pairs of both blobs, all resume chunks
inserted before all job-description chunks, each group in blob (chunk-list)
order; projecting the chunks out of the index recovers the two chunk lists
concatenated. -/
theorem rag_assembler_merged_index (V : Type)
    (chunker : ChunkConfig → String → List String) (embed : String → V)
    (resume_content jd_content : String) :
    get_rag_chain_index chunker embed resume_content jd_content =
      (chunker ⟨1000, 200⟩ resume_content).map (fun d => (d, embed d)) ++
        (chunker ⟨1000, 200⟩ jd_content).map (fun d => (d, embed d)) ∧
    (get_rag_chain_index chunker embed resume_content jd_content).map Prod.fst =
      chunker ⟨1000, 200⟩ resume_content ++ chunker ⟨1000, 200⟩ jd_content := by
  constructor
  · unfold get_rag_chain_index
    simp
  · unfold get_rag_chain_index
    simp [List.map_map, Function.comp_def]

/-- Two distinct endswith suffixes of the same string must be suffixes of
one another; used to show the loader's suffix tests are mutually exclusive. -/
theorem pyEndsWith_excl (p a b : String) (ha : pyEndsWith p a = true)
    (hb : pyEndsWith p b = true) (hab : ¬ (a.data <:+ b.data))
    (hba : ¬ (b.data <:+ a.data)) : False := by
  unfold pyEndsWith at ha hb
  have ha' := of_decide_eq_true ha
  have hb' := of_decide_eq_true hb
  rcases List.suffix_or_suffix_of_suffix ha' hb' with h | h
  · exact hab h
  · exact hba h

/-- C9: `load_document` raises the unsupported-file-type error exactly for
paths ending in none of `.pdf`, `.docx`, `.txt` (no alternate handling), and
for a path ending in one of those suffixes it selects the corresponding
loader (the three suffix tests are mutually exclusive, so each suffix alone
determines the loader). -/
theorem load_document_unsupported (p : String) :
    ((pyEndsWith p ".pdf" = false ∧ pyEndsWith p ".docx" = false ∧
        pyEndsWith p ".txt" = false) ↔
      load_document p = .error "Unsupported file type") ∧
    (pyEndsWith p ".pdf" = true → load_document p = .ok .pyPDFLoader) ∧
    (pyEndsWith p ".docx" = true → load_document p = .ok .docx2txtLoader) ∧
    (pyEndsWith p ".txt" = true → load_document p = .ok .textLoader) := by
  refine ⟨⟨?_, ?_⟩, ?_, ?_, ?_⟩
  · rintro ⟨h1, h2, h3⟩
    simp [load_document, h1, h2, h3]
  · intro e
    have hpdf : pyEndsWith p ".pdf" = false := by
      cases h1 : pyEndsWith p ".pdf"
      · rfl
      · exfalso
        simp [load_document, h1] at e
    have hdocx : pyEndsWith p ".docx" = false := by
      cases h2 : pyEndsWith p ".docx"
      · rfl
      · exfalso
        simp [load_document, hpdf, h2] at e
    have htxt : pyEndsWith p ".txt" = false := by
      cases h3 : pyEndsWith p ".txt"
      · rfl
      · exfalso
        simp [load_document, hpdf, hdocx, h3] at e
    exact ⟨hpdf, hdocx, htxt⟩
  · intro h
    simp [load_document, h]
  · intro h
    have hpdf : pyEndsWith p ".pdf" = false := by
      cases hp : pyEndsWith p ".pdf"
      · rfl
      · exact (pyEndsWith_excl p ".pdf" ".docx" hp h (by decide) (by decide)).elim
    simp [load_document, hpdf, h]
  · intro h
    have hpdf : pyEndsWith p ".pdf" = false := by
      cases hp : pyEndsWith p ".pdf"
      · rfl
      · exact (pyEndsWith_excl p ".pdf" ".txt" hp h (by decide) (by decide)).elim
    have hdocx : pyEndsWith p ".docx" = false := by
      cases hd : pyEndsWith p ".docx"
      · rfl
      · exact (pyEndsWith_excl p ".docx" ".txt" hd h (by decide) (by decide)).elim
    simp [load_document, hpdf, hdocx, h]

theorem load_document_unsupported_witness :
    load_document "resume.markdown" = .error "Unsupported file type" ∧
      load_document "resume.pdf" = .ok .pyPDFLoader ∧
      load_document "resume.docx" = .ok .docx2txtLoader ∧
      load_document "notes.txt" = .ok .textLoader :=
  ⟨(load_document_unsupported "resume.markdown").1.mp
      ⟨by decide, by decide, by decide⟩,
    (load_document_unsupported "resume.pdf").2.1 (by decide),
    (load_document_unsupported "resume.docx").2.2.1 (by decide),
    (load_document_unsupported "notes.txt").2.2.2 (by decide)⟩
